import Mathlib

/-!
Shallow embedding of the `constructor-lite` crate (src/lib.rs): a derive
macro that generates a minimal constructor for a struct from its fields.

The embedding models the data that flows through the macro:
`syn::Type` / `syn::Path` become `Ty` (a path keeps its leading-colon flag
and the identifiers of its segments; every non-path type — reference,
tuple, array, … — is `Ty.other`), `darling`-parsed fields become `Field`,
and the generated token stream becomes `Ctor`, recording the pieces the
`quote!` invocation at lib.rs:134-147 interpolates: the argument list
`#ident: #ty`, the two ident lists, and the struct-literal body in the
order the tokens are emitted.
-/

set_option autoImplicit false

namespace constructor_lite

/-- Model of a field's declared type. `path lc segs` is `syn::Type::Path`
with `lc` the presence of a leading `::` and `segs` the identifiers of the
path segments; `other` is any non-path `syn::Type` (reference, tuple,
array, …), carrying an opaque description of its syntax. -/
inductive Ty where
  | path (leadingColon : Bool) (segments : List String)
  | other (descr : String)
deriving DecidableEq, Repr

/-- lib.rs:50-58 — a struct field as parsed by darling: its ident, its
type, and the presence of the `#[constructor(required)]` and
`#[constructor(default)]` flags. `supports(struct_named)` guarantees the
ident is present, so it is modelled as a plain `String`. -/
structure Field where
  ident : String
  ty : Ty
  required : Bool
  default : Bool
deriving DecidableEq, Repr

/-- The structured errors the macro produces. `conflictingDirectives`
is the `darling::Error::custom("Field cannot use `required` and
`default`at the same time.")` of `Field::not_both`, spanned at the
offending field; `unsupportedShape` covers both darling's
`supports(struct_named)` rejection and the `"ConstructorLite supports
only structs."` error at lib.rs:95. -/
inductive Error where
  | conflictingDirectives (field : String)
  | unsupportedShape
deriving DecidableEq, Repr

/-- lib.rs:60-69 — `Field::not_both`: reject a field that carries both
`required` and `default`. -/
def Field.not_both (f : Field) : Except Error Field :=
  if f.required && f.default then
    Except.error (Error.conflictingDirectives f.ident)
  else
    Except.ok f

/-- lib.rs:153-180 — `path_is_option`. First branch: a bare `Option` —
no leading colon, exactly one segment, named `Option`. Second branch:
three `next()` calls on the segment iterator check that the first three
segments are `core`/`std`, `option`, `Option`; segments beyond the third
are never consulted and the leading colon is not examined. -/
def path_is_option (leadingColon : Bool) (segments : List String) : Bool :=
  if !leadingColon && segments.length == 1 && segments.head? == some "Option" then
    true
  else
    match segments with
    | root :: second :: third :: _ =>
        (root == "core" || root == "std") && second == "option" && third == "Option"
    | _ => false

/-- lib.rs:78 — `darling::ast::Data<(), Field>`: the body of the derive
input, with enum variants mapped to `()`. -/
inductive Data where
  | struct_ (fields : List Field)
  | enum_ (variants : List Unit)
deriving DecidableEq, Repr

/-- lib.rs:72-82 — the `ConstructorLite` receiver: the struct's own
visibility, ident and generics, its body, and the optional
`#[constructor(visibility = …)]` / `#[constructor(name = …)]` overrides.
Visibilities and generics are carried through verbatim, so they are
modelled as opaque strings. -/
structure ConstructorLite where
  vis : String
  ident : String
  generics : String
  data : Data
  visibility : Option String
  name : Option String
deriving DecidableEq, Repr

/-- The shape of a raw `syn::DeriveInput` body, as darling's
`supports(struct_named)` distinguishes them. -/
inductive Shape where
  | structNamed
  | structTuple
  | structUnit
  | enumShape
  | unionShape
deriving DecidableEq, Repr

/-- A raw derive input as handed to the macro: the struct's visibility,
ident, generics, body shape with its field list (empty for unit / enum /
union bodies), and the two per-struct overrides. -/
structure DeriveInput where
  vis : String
  ident : String
  generics : String
  shape : Shape
  fields : List Field
  visibility : Option String
  name : Option String
deriving DecidableEq, Repr

/-- darling's per-field validation: each field is parsed and then piped
through `and_then = "Self::not_both"` (lib.rs:51). Modelled with
`Except`, which stops at the first failing field (darling itself
accumulates every field error before reporting; either way no value is
produced once a field fails). -/
def validateFields : List Field → Except Error (List Field)
  | [] => Except.ok []
  | f :: rest => do
      let f2 ← f.not_both
      let rest2 ← validateFields rest
      pure (f2 :: rest2)

/-- lib.rs:187 — `ConstructorLite::from_derive_input`, as derived by
darling with `supports(struct_named)` (lib.rs:73): any body that is not a
named-field struct is rejected, and every field is validated with
`Field::not_both`. -/
def ConstructorLite.fromDeriveInput (i : DeriveInput) : Except Error ConstructorLite :=
  match i.shape with
  | Shape.structNamed => do
      let fields ← validateFields i.fields
      pure { vis := i.vis, ident := i.ident, generics := i.generics,
             data := Data.struct_ fields,
             visibility := i.visibility, name := i.name }
  | _ => Except.error Error.unsupportedShape

/-- One entry of the generated struct-literal body (lib.rs:137-144):
`fromArg n` is the shorthand `n,` (field initialised from the like-named
argument), `defaulted n` is `n: Default::default(),`. -/
inductive BodyEntry where
  | fromArg (ident : String)
  | defaulted (ident : String)
deriving DecidableEq, Repr

/-- The generated constructor, recording what the `quote!` at
lib.rs:134-147 interpolates: the impl's generics and self type, the
function's visibility and name, the `#ident: #ty` argument list, the two
ident lists, and the struct-literal body in emitted token order. -/
structure Ctor where
  generics : String
  selfIdent : String
  vis : String
  name : String
  arguments : List (String × Ty)
  requiredFieldIdents : List String
  optionalFieldIdents : List String
  body : List BodyEntry
deriving DecidableEq, Repr

/-- lib.rs:102-127 — the field loop of `ConstructorLite::constructor`.
For each field in declaration order: a `required` field is pushed onto
`arguments` and `required_field_idents`; otherwise a `default` field is
pushed onto `optional_field_idents`; otherwise, if the type is a path it
goes to one side or the other according to `path_is_option`; a non-path
type falls through the `if let` and the field is pushed nowhere.
Returns `(arguments, required_field_idents, optional_field_idents)`. -/
def processFields : List Field → List (String × Ty) × List String × List String
  | [] => ([], [], [])
  | f :: rest =>
    let (args, req, opt) := processFields rest
    if f.required then
      ((f.ident, f.ty) :: args, f.ident :: req, opt)
    else if f.default then
      (args, req, f.ident :: opt)
    else
      match f.ty with
      | Ty.path lc segs =>
          if path_is_option lc segs then
            (args, req, f.ident :: opt)
          else
            ((f.ident, f.ty) :: args, f.ident :: req, opt)
      | Ty.other _ => (args, req, opt)

/-- lib.rs:84-150 — `ConstructorLite::constructor`. A non-struct body is
rejected (`"ConstructorLite supports only structs."`); otherwise the
field loop runs, the effective visibility is the override or the
struct's own, the effective name is the override or `new`, and the
output records the generated tokens: arguments in the signature, then
the body listing the required-field shorthands followed by the
`Default::default()` assignments, exactly as the `quote!` emits them. -/
def ConstructorLite.constructor (s : ConstructorLite) : Except Error Ctor :=
  match s.data with
  | Data.struct_ fields =>
      let (arguments, requiredFieldIdents, optionalFieldIdents) := processFields fields
      let vis := s.visibility.getD s.vis
      let name := s.name.getD "new"
      Except.ok
        { generics := s.generics
          selfIdent := s.ident
          vis := vis
          name := name
          arguments := arguments
          requiredFieldIdents := requiredFieldIdents
          optionalFieldIdents := optionalFieldIdents
          body := requiredFieldIdents.map BodyEntry.fromArg
                    ++ optionalFieldIdents.map BodyEntry.defaulted }
  | Data.enum_ _ => Except.error Error.unsupportedShape

/-- lib.rs:185-190 — the `constructor_lite_derive` entry point:
`from_derive_input` chained with `constructor` via `and_then`. -/
def constructor_lite_derive (input : DeriveInput) : Except Error Ctor :=
  (ConstructorLite.fromDeriveInput input).bind ConstructorLite.constructor

/-- The classification a field receives from the loop at lib.rs:102-127:
`parameter` (becomes a constructor argument), `defaulted` (filled with
`Default::default()`), or `ignored` (pushed nowhere: a directive-free
field whose type is not a path). -/
inductive FieldClassification where
  | parameter
  | defaulted
  | ignored
deriving DecidableEq, Repr

/-- The branch structure of the field loop, per field. -/
def classifyField (f : Field) : FieldClassification :=
  if f.required then FieldClassification.parameter
  else if f.default then FieldClassification.defaulted
  else
    match f.ty with
    | Ty.path lc segs =>
        if path_is_option lc segs then FieldClassification.defaulted
        else FieldClassification.parameter
    | Ty.other _ => FieldClassification.ignored

/-! ### Basic lemmas about the field loop -/

/-- Unfolding lemma: one step of the field loop, expressed through
`classifyField`. -/
theorem processFields_cons (f : Field) (rest : List Field) :
    processFields (f :: rest) =
      match classifyField f with
      | FieldClassification.parameter =>
          ((f.ident, f.ty) :: (processFields rest).1,
            f.ident :: (processFields rest).2.1,
            (processFields rest).2.2)
      | FieldClassification.defaulted =>
          ((processFields rest).1,
            (processFields rest).2.1,
            f.ident :: (processFields rest).2.2)
      | FieldClassification.ignored => processFields rest := by
  rcases hpr : processFields rest with ⟨args, req, opt⟩
  rcases f with ⟨n, ty, r, d⟩
  cases r with
  | true => simp [processFields, classifyField, hpr]
  | false =>
      cases d with
      | true => simp [processFields, classifyField, hpr]
      | false =>
          cases ty with
          | path lc segs =>
              cases hpo : path_is_option lc segs <;>
                simp [processFields, classifyField, hpr, hpo]
          | other descr => simp [processFields, classifyField, hpr]

/-- The three lists the loop produces are the classification filters of
the field list, in declaration order. -/
theorem processFields_eq (fields : List Field) :
    processFields fields =
      ((fields.filter fun f => classifyField f == FieldClassification.parameter).map
          (fun f => (f.ident, f.ty)),
        (fields.filter fun f => classifyField f == FieldClassification.parameter).map Field.ident,
        (fields.filter fun f => classifyField f == FieldClassification.defaulted).map Field.ident) := by
  induction fields with
  | nil => rfl
  | cons f rest ih =>
      rw [processFields_cons, ih]
      cases hc : classifyField f <;>
        simp [List.filter_cons, hc]

/-- A field that the loop ignores can be removed from the field list
without changing the loop's output. -/
theorem processFields_ignored_erase (pre suf : List Field) (f : Field)
    (hcls : classifyField f = FieldClassification.ignored) :
    processFields (pre ++ f :: suf) = processFields (pre ++ suf) := by
  induction pre with
  | nil =>
      have h := processFields_cons f suf
      rw [hcls] at h
      simpa using h
  | cons g pre ih =>
      rw [List.cons_append, List.cons_append, processFields_cons, processFields_cons, ih]

/-! ### Lemmas about field validation (`Field::not_both`) -/

/-- `not_both` succeeds exactly on fields that do not carry both flags,
and returns the field unchanged. -/
theorem not_both_ok (f : Field) (h : ¬(f.required = true ∧ f.default = true)) :
    Field.not_both f = Except.ok f := by
  unfold Field.not_both
  rw [if_neg]
  simp only [Bool.and_eq_true]
  exact h

/-- The only error `not_both` produces is `conflictingDirectives` at the
field's own ident. -/
theorem not_both_error_shape (f : Field) (e : Error)
    (h : Field.not_both f = Except.error e) :
    e = Error.conflictingDirectives f.ident := by
  unfold Field.not_both at h
  split at h
  · injection h with h2
    exact h2.symm
  · cases h

/-- If every field passes `not_both`, validation returns the list
unchanged. -/
theorem validateFields_ok (l : List Field)
    (h : ∀ f ∈ l, Field.not_both f = Except.ok f) :
    validateFields l = Except.ok l := by
  induction l with
  | nil => rfl
  | cons f rest ih =>
      show Field.not_both f >>= _ = _
      rw [h f (List.mem_cons_self f rest), ih fun g hg => h g (List.mem_cons_of_mem f hg)]
      rfl

/-- If some field of the list fails `not_both`, validation fails. -/
theorem validateFields_mem_fail (l : List Field) (f : Field) (hf : f ∈ l)
    (e : Error) (he : Field.not_both f = Except.error e) :
    ∃ e2, validateFields l = Except.error e2 := by
  induction l with
  | nil => cases hf
  | cons g rest ih =>
      rcases List.mem_cons.mp hf with hfg | hfr
      · subst hfg
        refine ⟨e, ?_⟩
        show Field.not_both f >>= _ = _
        rw [he]
        rfl
      · cases hng : Field.not_both g with
        | error e2 =>
            refine ⟨e2, ?_⟩
            show Field.not_both g >>= _ = _
            rw [hng]
            rfl
        | ok g2 =>
            obtain ⟨e2, hrest⟩ := ih hfr
            refine ⟨e2, ?_⟩
            show Field.not_both g >>= _ = _
            rw [hng]
            show validateFields rest >>= _ = _
            rw [hrest]
            rfl

/-- Validation errors are always `conflictingDirectives` errors. -/
theorem validateFields_error_shape (l : List Field) (e : Error)
    (h : validateFields l = Except.error e) :
    ∃ n, e = Error.conflictingDirectives n := by
  induction l with
  | nil => cases h
  | cons g rest ih =>
      rw [show validateFields (g :: rest) = Field.not_both g >>= fun f2 =>
            validateFields rest >>= fun rest2 => pure (f2 :: rest2) from rfl] at h
      cases hng : Field.not_both g with
      | error e2 =>
          rw [hng] at h
          injection h with h2
          exact ⟨g.ident, h2 ▸ not_both_error_shape g e2 hng⟩
      | ok g2 =>
          rw [hng] at h
          cases hvr : validateFields rest with
          | error e2 =>
              rw [hvr] at h
              injection h with h2
              cases h2
              exact ih hvr
          | ok r2 =>
              rw [hvr] at h
              cases h

/-! ### Lemmas about the synthesizer and the derive pipeline -/

/-- Explicit value of `ConstructorLite::constructor` on a struct body:
all four generated lists are classification filters of the field list in
declaration order, with the body listing the `Parameter` fields first and
the `Defaulted` fields second. -/
theorem constructor_struct (s : ConstructorLite) (fields : List Field)
    (h : s.data = Data.struct_ fields) :
    s.constructor =
      Except.ok
        { generics := s.generics
          selfIdent := s.ident
          vis := s.visibility.getD s.vis
          name := s.name.getD "new"
          arguments := (fields.filter fun f =>
              classifyField f == FieldClassification.parameter).map fun f => (f.ident, f.ty)
          requiredFieldIdents := (fields.filter fun f =>
              classifyField f == FieldClassification.parameter).map Field.ident
          optionalFieldIdents := (fields.filter fun f =>
              classifyField f == FieldClassification.defaulted).map Field.ident
          body := ((fields.filter fun f =>
                classifyField f == FieldClassification.parameter).map fun f =>
                  BodyEntry.fromArg f.ident)
              ++ ((fields.filter fun f =>
                classifyField f == FieldClassification.defaulted).map fun f =>
                  BodyEntry.defaulted f.ident) } := by
  unfold ConstructorLite.constructor
  rw [h]
  dsimp only
  rw [processFields_eq]
  simp [List.map_map, Function.comp_def]

/-- On a named-struct input, `from_derive_input` is field validation
followed by packaging the receiver. -/
theorem fromDeriveInput_eq (i : DeriveInput) (hsh : i.shape = Shape.structNamed) :
    ConstructorLite.fromDeriveInput i =
      (validateFields i.fields).map fun fields =>
        { vis := i.vis, ident := i.ident, generics := i.generics,
          data := Data.struct_ fields,
          visibility := i.visibility, name := i.name } := by
  unfold ConstructorLite.fromDeriveInput
  rw [hsh]
  cases validateFields i.fields <;> rfl

/-- A named-struct input whose fields all pass validation derives
successfully. -/
theorem derive_ok (i : DeriveInput) (hsh : i.shape = Shape.structNamed)
    (hok : ∀ f ∈ i.fields, Field.not_both f = Except.ok f) :
    ∃ c, constructor_lite_derive i = Except.ok c := by
  unfold constructor_lite_derive
  rw [fromDeriveInput_eq i hsh, validateFields_ok i.fields hok]
  exact ⟨_, constructor_struct
    { vis := i.vis, ident := i.ident, generics := i.generics,
      data := Data.struct_ i.fields,
      visibility := i.visibility, name := i.name } i.fields rfl⟩

/-- A non-named-struct input is rejected with `unsupportedShape` before
any field is looked at. -/
theorem derive_not_named (i : DeriveInput) (hsh : i.shape ≠ Shape.structNamed) :
    constructor_lite_derive i = Except.error Error.unsupportedShape := by
  unfold constructor_lite_derive ConstructorLite.fromDeriveInput
  cases h : i.shape <;> first | exact absurd h hsh | rfl

/-- Every error the pipeline produces on a named-struct input is a
`conflictingDirectives` error. -/
theorem derive_named_error_shape (i : DeriveInput) (hsh : i.shape = Shape.structNamed)
    (e : Error) (h : constructor_lite_derive i = Except.error e) :
    ∃ n, e = Error.conflictingDirectives n := by
  unfold constructor_lite_derive at h
  rw [fromDeriveInput_eq i hsh] at h
  cases hv : validateFields i.fields with
  | error e2 =>
      rw [hv] at h
      injection h with h2
      exact h2 ▸ validateFields_error_shape i.fields e2 hv
  | ok l2 =>
      rw [hv] at h
      rw [show ((Except.ok l2).map fun fields =>
            ({ vis := i.vis, ident := i.ident, generics := i.generics,
               data := Data.struct_ fields,
               visibility := i.visibility, name := i.name } : ConstructorLite)).bind
            ConstructorLite.constructor =
          ConstructorLite.constructor
            { vis := i.vis, ident := i.ident, generics := i.generics,
              data := Data.struct_ l2,
              visibility := i.visibility, name := i.name } from rfl] at h
      rw [constructor_struct _ l2 rfl] at h
      cases h

/-! ### Shape lemmas for the path recognizer -/

theorem path_is_option_nil (lc : Bool) : path_is_option lc [] = false := by
  cases lc <;> rfl

theorem path_is_option_single (lc : Bool) (a : String) :
    path_is_option lc [a] = (!lc && a == "Option") := by
  cases lc <;> cases h : a == "Option" <;> simp [path_is_option, h]

theorem path_is_option_pair (lc : Bool) (a b : String) :
    path_is_option lc [a, b] = false := by
  cases lc <;> simp [path_is_option]

theorem path_is_option_long (lc : Bool) (a b c : String) (rest : List String) :
    path_is_option lc (a :: b :: c :: rest) =
      ((a == "core" || a == "std") && b == "option" && c == "Option") := by
  cases lc <;> simp [path_is_option]

/-! ### Settled claims -/

/-- A named-struct derive input with a single directive-free field whose
type is not a syntactic path (here: a reference type). -/
def referenceFieldInput : DeriveInput :=
  { vis := "pub", ident := "S", generics := "", shape := Shape.structNamed,
    fields := [{ ident := "x", ty := Ty.other "reference", required := false,
                 default := false }],
    visibility := none, name := none }

/-- C1, counterexample. The claim's rule (4) says every remaining field,
whatever its type's syntactic shape, is classified `Parameter`, which
would make `x` a constructor argument and a body entry. Instead the
generated constructor for a struct whose only field is a directive-free
reference-typed `x` has an empty argument list and an empty body: the
field is classified neither `Parameter` nor `Defaulted` — it is dropped. -/
theorem nonpath_directive_free_field_dropped :
    constructor_lite_derive referenceFieldInput =
      Except.ok { generics := "", selfIdent := "S", vis := "pub", name := "new",
                  arguments := [], requiredFieldIdents := [], optionalFieldIdents := [],
                  body := [] } := rfl

/-- C1, amended: classification follows the priority rule — `required`
present beats everything and yields `Parameter`; else `default` present
yields `Defaulted`; else a path type yields `Defaulted` or `Parameter`
according to `path_is_option` — but rule (4) only covers fields whose
type is a syntactic path: a directive-free field of non-path type is
pushed onto none of the generated lists. -/
theorem field_classification_priority (f : Field) (rest : List Field) :
    (f.required = true →
        processFields (f :: rest) =
          ((f.ident, f.ty) :: (processFields rest).1,
            f.ident :: (processFields rest).2.1,
            (processFields rest).2.2)) ∧
    (f.required = false → f.default = true →
        processFields (f :: rest) =
          ((processFields rest).1,
            (processFields rest).2.1,
            f.ident :: (processFields rest).2.2)) ∧
    (∀ lc segs, f.required = false → f.default = false → f.ty = Ty.path lc segs →
        processFields (f :: rest) =
          (if path_is_option lc segs then
            ((processFields rest).1,
              (processFields rest).2.1,
              f.ident :: (processFields rest).2.2)
          else
            ((f.ident, f.ty) :: (processFields rest).1,
              f.ident :: (processFields rest).2.1,
              (processFields rest).2.2))) ∧
    (∀ d, f.required = false → f.default = false → f.ty = Ty.other d →
        processFields (f :: rest) = processFields rest) := by
  refine ⟨?_, ?_, ?_, ?_⟩
  · intro hr
    have hc : classifyField f = FieldClassification.parameter := by
      simp [classifyField, hr]
    rw [processFields_cons, hc]
  · intro hr hd
    have hc : classifyField f = FieldClassification.defaulted := by
      simp [classifyField, hr, hd]
    rw [processFields_cons, hc]
  · intro lc segs hr hd hty
    cases hpo : path_is_option lc segs with
    | true =>
        have hc : classifyField f = FieldClassification.defaulted := by
          simp [classifyField, hr, hd, hty, hpo]
        rw [processFields_cons, hc, if_pos rfl]
    | false =>
        have hc : classifyField f = FieldClassification.parameter := by
          simp [classifyField, hr, hd, hty, hpo]
        rw [processFields_cons, hc]
        simp
  · intro d hr hd hty
    have hc : classifyField f = FieldClassification.ignored := by
      simp [classifyField, hr, hd, hty]
    rw [processFields_cons, hc]

/-- C1, witness: the four branches of the priority rule at concrete
fields — a `required` optional field becomes an argument, a `default`
field is defaulted, a directive-free `Option` field is defaulted, and a
directive-free non-path field is dropped. -/
theorem field_classification_priority_witness :
    processFields [⟨"a", Ty.path false ["Option"], true, false⟩] =
        ([("a", Ty.path false ["Option"])], ["a"], []) ∧
    processFields [⟨"b", Ty.path false ["String"], false, true⟩] = ([], [], ["b"]) ∧
    processFields [⟨"c", Ty.path false ["Option"], false, false⟩] = ([], [], ["c"]) ∧
    processFields [⟨"d", Ty.other "tuple", false, false⟩] = ([], [], []) :=
  ⟨(field_classification_priority _ []).1 rfl,
   (field_classification_priority _ []).2.1 rfl rfl,
   (field_classification_priority _ []).2.2.1 false ["Option"] rfl rfl rfl,
   (field_classification_priority _ []).2.2.2 "tuple" rfl rfl rfl⟩

/-- C2, counterexample. The claim says every shape other than the bare
name and an exactly three-segment qualified path returns `false`, and in
particular longer paths return `false`. The recognizer never checks that
the segment iterator is exhausted after the third segment, so the
four-segment path `std::option::Option::Foo` is accepted. -/
theorem path_is_option_long_path :
    path_is_option false ["std", "option", "Option", "Foo"] = true := rfl

/-- C2, amended: `path_is_option` returns true iff the path is a bare
single-segment `Option` without leading qualifier, or has at least three
segments of which the first three are `core`/`std`, `option`, `Option` —
independent of the leading qualifier and of any segments beyond the
third; every other shape, including a root-qualified bare name, returns
false, and aliases are never unwrapped (the predicate only inspects the
syntactic segments). Moreover each of the five exactly-spelled
recognized forms classifies a directive-free field as `Defaulted`. -/
theorem path_is_option_characterization :
    (∀ (lc : Bool) (segs : List String),
        path_is_option lc segs = true ↔
          (lc = false ∧ segs = ["Option"]) ∨
          ∃ root rest, (root = "core" ∨ root = "std") ∧
            segs = root :: "option" :: "Option" :: rest) ∧
    (∀ n : String,
        classifyField ⟨n, Ty.path false ["Option"], false, false⟩ =
            FieldClassification.defaulted ∧
        classifyField ⟨n, Ty.path false ["core", "option", "Option"], false, false⟩ =
            FieldClassification.defaulted ∧
        classifyField ⟨n, Ty.path true ["core", "option", "Option"], false, false⟩ =
            FieldClassification.defaulted ∧
        classifyField ⟨n, Ty.path false ["std", "option", "Option"], false, false⟩ =
            FieldClassification.defaulted ∧
        classifyField ⟨n, Ty.path true ["std", "option", "Option"], false, false⟩ =
            FieldClassification.defaulted) := by
  constructor
  · intro lc segs
    match segs with
    | [] => simp [path_is_option_nil]
    | [a] =>
        rw [path_is_option_single]
        cases lc <;> simp
    | [a, b] => simp [path_is_option_pair]
    | a :: b :: c :: rest =>
        rw [path_is_option_long]
        cases lc <;> simp [Bool.and_eq_true, Bool.or_eq_true, beq_iff_eq, and_assoc] <;>
          aesop
  · intro n
    exact ⟨rfl, rfl, rfl, rfl, rfl⟩

/-- A struct whose first declared field (`year: Option<u16>`) is
`Defaulted` and whose second declared field (`title: String`) is
`Parameter`. -/
def movieReceiver : ConstructorLite :=
  { vis := "pub", ident := "Movie", generics := "",
    data := Data.struct_
      [⟨"year", Ty.path false ["Option"], false, false⟩,
       ⟨"title", Ty.path false ["String"], false, false⟩],
    visibility := none, name := none }

/-- C3, counterexample. The claim says the struct-literal body lists the
fields in the record's original declaration order. The declaration order
of `movieReceiver` is `year`, then `title`; the generated body lists the
`Parameter` field `title` first and the `Defaulted` field `year` second,
because the `quote!` emits all required-field shorthands before all
`Default::default()` assignments. -/
theorem constructor_body_not_declaration_order :
    ConstructorLite.constructor movieReceiver =
      Except.ok { generics := "", selfIdent := "Movie", vis := "pub", name := "new",
                  arguments := [("title", Ty.path false ["String"])],
                  requiredFieldIdents := ["title"],
                  optionalFieldIdents := ["year"],
                  body := [BodyEntry.fromArg "title", BodyEntry.defaulted "year"] } := rfl

/-- C3, amended: the body is a record literal that assigns, for every
`Parameter`-classified field, the identically-named argument and, for
every `Defaulted`-classified field, the default value of the field's
declared type — with all `Parameter` fields listed first, in declaration
order, followed by all `Defaulted` fields, in declaration order (not in
the record's interleaved declaration order). -/
theorem constructor_body_structure (s : ConstructorLite) (fields : List Field)
    (h : s.data = Data.struct_ fields) :
    ∃ c, s.constructor = Except.ok c ∧
      c.body =
        ((fields.filter fun f => classifyField f == FieldClassification.parameter).map
            fun f => BodyEntry.fromArg f.ident)
          ++ ((fields.filter fun f => classifyField f == FieldClassification.defaulted).map
              fun f => BodyEntry.defaulted f.ident) :=
  ⟨_, constructor_struct s fields h, rfl⟩

/-- C3, witness: the amended body shape evaluated on the two-field
struct `Movie { year: Option<u16>, title: String }`. -/
theorem constructor_body_structure_witness :
    ∃ c, ConstructorLite.constructor movieReceiver = Except.ok c ∧
      c.body = [BodyEntry.fromArg "title", BodyEntry.defaulted "year"] :=
  constructor_body_structure movieReceiver
    [⟨"year", Ty.path false ["Option"], false, false⟩,
     ⟨"title", Ty.path false ["String"], false, false⟩] rfl

/-- C4, confirmed: a directive-free field whose declared type is not a
syntactic path contributes nothing to the generated constructor — the
output is identical to the output for the same struct with the field
removed, so the field appears neither in the argument list nor in the
body. -/
theorem nonpath_field_ignored (s : ConstructorLite) (pre suf : List Field)
    (f : Field) (d : String) (hty : f.ty = Ty.other d)
    (hr : f.required = false) (hd : f.default = false)
    (h : s.data = Data.struct_ (pre ++ f :: suf)) :
    s.constructor =
      ConstructorLite.constructor { s with data := Data.struct_ (pre ++ suf) } := by
  have hc : classifyField f = FieldClassification.ignored := by
    simp [classifyField, hr, hd, hty]
  unfold ConstructorLite.constructor
  rw [h]
  dsimp only
  rw [processFields_ignored_erase pre suf f hc]

/-- C4, witness: a struct declaring `a: String`, `x: (u8, u8)`, `b:
Option<u8>` generates exactly the constructor of the struct without
`x` — one argument `a`, body `a, b: Default::default()`. -/
theorem nonpath_field_ignored_witness :
    ConstructorLite.constructor
        { vis := "pub", ident := "T", generics := "",
          data := Data.struct_
            [⟨"a", Ty.path false ["String"], false, false⟩,
             ⟨"x", Ty.other "tuple", false, false⟩,
             ⟨"b", Ty.path false ["Option"], false, false⟩],
          visibility := none, name := none } =
      ConstructorLite.constructor
        { vis := "pub", ident := "T", generics := "",
          data := Data.struct_
            [⟨"a", Ty.path false ["String"], false, false⟩,
             ⟨"b", Ty.path false ["Option"], false, false⟩],
          visibility := none, name := none } :=
  nonpath_field_ignored
    { vis := "pub", ident := "T", generics := "",
      data := Data.struct_
        [⟨"a", Ty.path false ["String"], false, false⟩,
         ⟨"x", Ty.other "tuple", false, false⟩,
         ⟨"b", Ty.path false ["Option"], false, false⟩],
      visibility := none, name := none }
    [⟨"a", Ty.path false ["String"], false, false⟩]
    [⟨"b", Ty.path false ["Option"], false, false⟩]
    ⟨"x", Ty.other "tuple", false, false⟩ "tuple" rfl rfl rfl rfl

/-- C5, confirmed: a field carrying both directives makes `not_both`
fail with a `conflictingDirectives` error citing that field's ident, and
any derive input containing such a field can never parse into a
receiver — the conflict is a hard error, never silently resolved to one
of the two directives. -/
theorem conflicting_directives_error (f : Field)
    (hr : f.required = true) (hd : f.default = true) :
    Field.not_both f = Except.error (Error.conflictingDirectives f.ident) ∧
    ∀ i : DeriveInput, f ∈ i.fields →
      ∀ s, ConstructorLite.fromDeriveInput i ≠ Except.ok s := by
  have hnb : Field.not_both f = Except.error (Error.conflictingDirectives f.ident) := by
    unfold Field.not_both
    rw [hr, hd]
    rfl
  refine ⟨hnb, ?_⟩
  intro i hmem s hok
  by_cases hsh : i.shape = Shape.structNamed
  · rw [fromDeriveInput_eq i hsh] at hok
    obtain ⟨e2, hval⟩ := validateFields_mem_fail i.fields f hmem _ hnb
    rw [hval] at hok
    cases hok
  · unfold ConstructorLite.fromDeriveInput at hok
    cases h : i.shape <;> rw [h] at hok
    · exact absurd h hsh
    all_goals cases hok

/-- C5, witness: a concrete field with both flags is rejected with the
error citing it. -/
theorem conflicting_directives_error_witness :
    Field.not_both ⟨"x", Ty.path false ["u8"], true, true⟩ =
      Except.error (Error.conflictingDirectives "x") :=
  (conflicting_directives_error ⟨"x", Ty.path false ["u8"], true, true⟩ rfl rfl).1

/-- C6, confirmed: the pipeline fails with `unsupportedShape` on every
input whose body is not a named-field struct (tuple struct, unit struct,
enum, union) and only on those — a named-field struct never produces
`unsupportedShape`, and when all its fields validate it produces a
constructor descriptor. -/
theorem unsupported_shape_characterization (i : DeriveInput) :
    (i.shape ≠ Shape.structNamed →
        constructor_lite_derive i = Except.error Error.unsupportedShape) ∧
    (i.shape = Shape.structNamed →
        constructor_lite_derive i ≠ Except.error Error.unsupportedShape) ∧
    (i.shape = Shape.structNamed →
        (∀ f ∈ i.fields, Field.not_both f = Except.ok f) →
        ∃ c, constructor_lite_derive i = Except.ok c) := by
  refine ⟨derive_not_named i, ?_, derive_ok i⟩
  intro hsh hcontra
  obtain ⟨n, hn⟩ := derive_named_error_shape i hsh _ hcontra
  cases hn

/-- An enum derive input. -/
def enumInput : DeriveInput :=
  { vis := "pub", ident := "E", generics := "", shape := Shape.enumShape,
    fields := [], visibility := none, name := none }

/-- A one-field named-struct derive input. -/
def namedInput : DeriveInput :=
  { vis := "pub", ident := "S", generics := "", shape := Shape.structNamed,
    fields := [⟨"a", Ty.path false ["String"], false, false⟩],
    visibility := none, name := none }

/-- C6, witness: an enum is rejected with `unsupportedShape`; a
named-field struct with a validating field derives successfully. -/
theorem unsupported_shape_characterization_witness :
    constructor_lite_derive enumInput = Except.error Error.unsupportedShape ∧
    ∃ c, constructor_lite_derive namedInput = Except.ok c :=
  ⟨(unsupported_shape_characterization enumInput).1 (by decide),
   (unsupported_shape_characterization namedInput).2.2 rfl
     (fun f hf => by rw [List.mem_singleton.mp hf]; rfl)⟩

/-- C7, confirmed: the generated argument list is exactly the
`Parameter`-classified fields, each as the pair of its declared name and
declared type, in declaration order; under the record's
unique-field-name invariant no `Defaulted` field's name ever occurs in
the argument list. -/
theorem parameter_list_characterization (s : ConstructorLite) (fields : List Field)
    (h : s.data = Data.struct_ fields)
    (hnodup : (fields.map Field.ident).Nodup) :
    ∃ c, s.constructor = Except.ok c ∧
      c.arguments = (fields.filter fun f =>
          classifyField f == FieldClassification.parameter).map (fun f => (f.ident, f.ty)) ∧
      ∀ f ∈ fields, classifyField f = FieldClassification.defaulted →
        ∀ ty, (f.ident, ty) ∉ c.arguments := by
  refine ⟨_, constructor_struct s fields h, rfl, ?_⟩
  intro f hf hcls ty hmem
  obtain ⟨g, hgmem, hgeq⟩ := List.mem_map.mp hmem
  have hgf : g ∈ fields := List.mem_of_mem_filter hgmem
  have hgcls : classifyField g = FieldClassification.parameter := by
    have h2 := List.of_mem_filter hgmem
    simpa using h2
  have hid : g.ident = f.ident := congrArg Prod.fst hgeq
  have hgfeq : g = f := List.inj_on_of_nodup_map hnodup hgf hf hid
  rw [hgfeq, hcls] at hgcls
  cases hgcls

/-- The field list of `pointReceiver`. -/
def pointFields : List Field :=
  [⟨"a", Ty.path false ["String"], false, false⟩,
   ⟨"b", Ty.path false ["Option"], false, false⟩]

/-- A two-field receiver: `a: String` (parameter), `b: Option<u8>`
(defaulted). -/
def pointReceiver : ConstructorLite :=
  { vis := "pub", ident := "P", generics := "",
    data := Data.struct_ pointFields, visibility := none, name := none }

/-- C7, witness: on `pointReceiver` the argument list is exactly
`[("a", String)]` and no defaulted field's name appears in it. -/
theorem parameter_list_characterization_witness :
    ∃ c, ConstructorLite.constructor pointReceiver = Except.ok c ∧
      c.arguments = [("a", Ty.path false ["String"])] ∧
      ∀ f ∈ pointFields, classifyField f = FieldClassification.defaulted →
        ∀ ty, (f.ident, ty) ∉ c.arguments :=
  parameter_list_characterization pointReceiver pointFields rfl (by decide)

/-- C8, confirmed: the generated function's name is the `name` override
when present and the literal `new` otherwise, and its visibility is the
`visibility` override when present and the struct's own visibility
otherwise — each resolved independently via `Option::unwrap_or`, so an
override wins regardless of the struct's own name and visibility. -/
theorem name_visibility_resolution (s : ConstructorLite) (fields : List Field)
    (h : s.data = Data.struct_ fields) :
    ∃ c, s.constructor = Except.ok c ∧
      c.name = s.name.getD "new" ∧ c.vis = s.visibility.getD s.vis :=
  ⟨_, constructor_struct s fields h, rfl, rfl⟩

/-- A receiver with both overrides present. -/
def makeReceiver : ConstructorLite :=
  { vis := "pub", ident := "Movie", generics := "",
    data := Data.struct_ [], visibility := some "pub(crate)", name := some "make" }

/-- C8, witness: with `name = "make"` and `visibility = "pub(crate)"`
present, the generated function is named `make` at visibility
`pub(crate)`, independent of the struct's own `pub` visibility. -/
theorem name_visibility_resolution_witness :
    ∃ c, ConstructorLite.constructor makeReceiver = Except.ok c ∧
      c.name = "make" ∧ c.vis = "pub(crate)" :=
  name_visibility_resolution makeReceiver [] rfl

/-- C9, confirmed: if any one field of a record fails classification
(carries both directives), the pipeline emits no constructor descriptor
for that record and returns an error instead; any other record whose
fields all validate still derives successfully (the pipeline is a pure
function of its own input). -/
theorem all_or_nothing_generation (i : DeriveInput) (f : Field) (hf : f ∈ i.fields)
    (hr : f.required = true) (hd : f.default = true) :
    (∀ c, constructor_lite_derive i ≠ Except.ok c) ∧
    (∃ e, constructor_lite_derive i = Except.error e) ∧
    (∀ j : DeriveInput, j.shape = Shape.structNamed →
        (∀ g ∈ j.fields, Field.not_both g = Except.ok g) →
        ∃ c, constructor_lite_derive j = Except.ok c) := by
  have hnb : Field.not_both f = Except.error (Error.conflictingDirectives f.ident) := by
    unfold Field.not_both
    rw [hr, hd]
    rfl
  have hnotok : ∀ c, constructor_lite_derive i ≠ Except.ok c := by
    intro c hok
    by_cases hsh : i.shape = Shape.structNamed
    · unfold constructor_lite_derive at hok
      rw [fromDeriveInput_eq i hsh] at hok
      obtain ⟨e2, hval⟩ := validateFields_mem_fail i.fields f hf _ hnb
      rw [hval] at hok
      cases hok
    · rw [derive_not_named i hsh] at hok
      cases hok
  refine ⟨hnotok, ?_, fun j hsh hok => derive_ok j hsh hok⟩
  cases hres : constructor_lite_derive i with
  | error e => exact ⟨e, rfl⟩
  | ok c => exact absurd hres (hnotok c)

/-- A named-struct input whose only field carries both directives. -/
def conflictInput : DeriveInput :=
  { vis := "pub", ident := "S", generics := "", shape := Shape.structNamed,
    fields := [⟨"x", Ty.path false ["u8"], true, true⟩],
    visibility := none, name := none }

/-- C9, witness: the record with a doubly-flagged field derives to an
error, never to a descriptor. -/
theorem all_or_nothing_generation_witness :
    ∃ e, constructor_lite_derive conflictInput = Except.error e :=
  (all_or_nothing_generation conflictInput ⟨"x", Ty.path false ["u8"], true, true⟩
      (List.mem_cons_self _ _) rfl rfl).2.1

/-- C10, confirmed: a named-field struct with zero fields derives
successfully to a constructor with an empty argument list and an empty
struct-literal body, for every choice of visibility, name, generics and
overrides. -/
theorem empty_struct_constructor (vis ident generics : String)
    (visibility name : Option String) :
    constructor_lite_derive
        { vis := vis, ident := ident, generics := generics, shape := Shape.structNamed,
          fields := [], visibility := visibility, name := name } =
      Except.ok
        { generics := generics, selfIdent := ident, vis := visibility.getD vis,
          name := name.getD "new", arguments := [], requiredFieldIdents := [],
          optionalFieldIdents := [], body := [] } := rfl

end constructor_lite
